import Mathlib

/-!
Verification development for `src/server/simple-test.py`, a sequential
smoke-test harness: one health probe, four fixed webhook scenarios, regex
scraping of the response markup, aggregation of latencies over the
successful runs, and a single summary-file write.

The Python code is shallowly embedded below.  External effects (the curl
subprocess outcomes, the wall-clock measurement, `time.time()`) are inputs
to the embedded functions; everything the script computes from them is
translated directly from the source.
-/

/-- The double-quote character, written via its code point. -/
def quoteChar : Char := Char.ofNat 34

/-- The backslash character, written via its code point. -/
def backslashChar : Char := Char.ofNat 92

/-- The opening curly-brace character, written via its code point. -/
def lbraceChar : Char := Char.ofNat 123

/-- The closing curly-brace character, written via its code point. -/
def rbraceChar : Char := Char.ofNat 125

/-- JSON insignificant whitespace, as accepted between tokens by
`json.loads` (space, tab, newline, carriage return). -/
def skipWs (l : List Char) : List Char :=
  l.dropWhile (fun c => c == ' ' || c == '\t' || c == '\n' || c == '\r')

/-- Hexadecimal digit test, used for the `\uXXXX` string escape. -/
def isHexChar (c : Char) : Bool :=
  c.isDigit || (Nat.ble 97 c.toNat && Nat.ble c.toNat 102) ||
    (Nat.ble 65 c.toNat && Nat.ble c.toNat 70)

/-- Numeric value of one hexadecimal digit. -/
def hexVal (c : Char) : Nat :=
  if c.isDigit then c.toNat - 48
  else if Nat.ble 97 c.toNat && Nat.ble c.toNat 102 then c.toNat - 87
  else c.toNat - 55

/-- Value of a four-digit hexadecimal escape `\uXXXX`. -/
def hex4 (h1 h2 h3 h4 : Char) : Nat :=
  ((hexVal h1 * 16 + hexVal h2) * 16 + hexVal h3) * 16 + hexVal h4

/-- High-surrogate test (U+D800 to U+DBFF). -/
def isHighSurrogate (n : Nat) : Bool := Nat.ble 55296 n && Nat.ble n 56319

/-- Low-surrogate test (U+DC00 to U+DFFF). -/
def isLowSurrogate (n : Nat) : Bool := Nat.ble 56320 n && Nat.ble n 57343

/-- Code point encoded by a surrogate pair. -/
def combineSurrogates (hi lo : Nat) : Nat :=
  65536 + (hi - 55296) * 1024 + (lo - 56320)

/-- Embedding of the JSON string grammar after the opening quote, in the
default strict mode of `json.loads`: unescaped characters are anything but
the quote, the backslash and control characters below 0x20; escapes are the
eight single-character ones plus `\uXXXX`, where an escaped high surrogate
directly followed by an escaped low surrogate combines into one code point
(a lone escaped surrogate is kept as is, as Python strings allow).  The
decoded text is returned as the list of its code points — `Nat` rather than
`Char` because Python strings may hold lone surrogates — together with the
input remaining after the closing quote.  The fuel (structural recursion
for the kernel) is instantiated by the callers with more than the input
length, which every step consumes. -/
def parseStringBody : Nat → List Char → Option (List Nat × List Char)
  | 0, _ => none
  | _ + 1, [] => none
  | fuel + 1, c :: rest =>
    if c = quoteChar then some ([], rest)
    else if c = backslashChar then
      match rest with
      | [] => none
      | e :: r2 =>
        if e = quoteChar then
          (parseStringBody fuel r2).map (fun p => (34 :: p.1, p.2))
        else if e = backslashChar then
          (parseStringBody fuel r2).map (fun p => (92 :: p.1, p.2))
        else if e = '/' then
          (parseStringBody fuel r2).map (fun p => (47 :: p.1, p.2))
        else if e = 'b' then
          (parseStringBody fuel r2).map (fun p => (8 :: p.1, p.2))
        else if e = 'f' then
          (parseStringBody fuel r2).map (fun p => (12 :: p.1, p.2))
        else if e = 'n' then
          (parseStringBody fuel r2).map (fun p => (10 :: p.1, p.2))
        else if e = 'r' then
          (parseStringBody fuel r2).map (fun p => (13 :: p.1, p.2))
        else if e = 't' then
          (parseStringBody fuel r2).map (fun p => (9 :: p.1, p.2))
        else if e = 'u' then
          match r2 with
          | h1 :: h2 :: h3 :: h4 :: r3 =>
            if isHexChar h1 && isHexChar h2 && isHexChar h3 && isHexChar h4 then
              match r3 with
              | b1 :: u1 :: g1 :: g2 :: g3 :: g4 :: r4 =>
                if b1 == backslashChar && u1 == 'u' && isHexChar g1 &&
                    isHexChar g2 && isHexChar g3 && isHexChar g4 &&
                    isHighSurrogate (hex4 h1 h2 h3 h4) &&
                    isLowSurrogate (hex4 g1 g2 g3 g4) then
                  (parseStringBody fuel r4).map (fun p =>
                    (combineSurrogates (hex4 h1 h2 h3 h4) (hex4 g1 g2 g3 g4) :: p.1,
                      p.2))
                else
                  (parseStringBody fuel r3).map (fun p =>
                    (hex4 h1 h2 h3 h4 :: p.1, p.2))
              | _ =>
                (parseStringBody fuel r3).map (fun p => (hex4 h1 h2 h3 h4 :: p.1, p.2))
            else none
          | _ => none
        else none
    else if c.toNat < 32 then none
    else (parseStringBody fuel rest).map (fun p => (c.toNat :: p.1, p.2))

/-- Drop a leading run of decimal digits. -/
def dropDigits (l : List Char) : List Char := l.dropWhile Char.isDigit

/-- Integer part of a JSON number: `0` or a nonzero digit followed by any
digits (the `(?:0|[1-9]\d*)` part of the scanner's number regex). -/
def parseIntPart : List Char → Option (List Char)
  | [] => none
  | c :: rest =>
    if c = '0' then some rest
    else if c.isDigit then some (dropDigits rest) else none

/-- Optional fraction part `\.\d+` of a JSON number.  When the dot is not
followed by a digit the whole number is rejected; `json.loads` would
instead match the shorter number and then fail on the stray dot, so the
overall validity verdict is the same. -/
def parseFrac : List Char → Option (List Char)
  | '.' :: rest =>
    match rest with
    | c :: r2 => if c.isDigit then some (dropDigits (c :: r2).tail) else none
    | [] => none
  | l => some l

/-- Optional exponent part `[eE][+-]?\d+` of a JSON number; same remark as
for `parseFrac` about rejection versus shorter match. -/
def parseExp : List Char → Option (List Char)
  | [] => some []
  | c :: rest =>
    if c = 'e' ∨ c = 'E' then
      match (match rest with
             | s :: r2 => if s = '+' ∨ s = '-' then r2 else rest
             | [] => rest) with
      | d :: r2 => if d.isDigit then some (dropDigits (d :: r2).tail) else none
      | [] => none
    else some (c :: rest)

/-- Remaining input after a JSON number: optional minus sign, integer
part, optional fraction and exponent. -/
def parseNumberRest (l : List Char) : Option (List Char) := do
  let l1 := match l with
            | c :: rest => if c = '-' then rest else l
            | [] => l
  let r1 ← parseIntPart l1
  let r2 ← parseFrac r1
  parseExp r2

/-- A JSON number: the consumed lexeme together with the remaining
input. -/
def parseNumber (l : List Char) : Option (List Char × List Char) :=
  (parseNumberRest l).map (fun r => (l.take (l.length - r.length), r))

/-- The values `json.loads` produces, as far as the script observes them.
Object members are kept in document order with decoded keys (`dict`
construction keeps the last binding of a duplicate key — see `dictGet`);
strings are decoded code-point lists; numbers (including the CPython
extensions `NaN`, `Infinity`, `-Infinity`) keep their lexeme, whose
numeric value the script never inspects. -/
inductive JVal
  | obj (members : List (List Nat × JVal))
  | arr (elems : List JVal)
  | str (codes : List Nat)
  | num (lit : List Char)
  | boolv (b : Bool)
  | null

/-- Parsing mode for the fueled JSON parser: one value, the elements of an
array (with those already parsed), or the members of an object (with those
already parsed). -/
inductive JMode
  | value
  | elems (acc : List JVal)
  | pairs (acc : List (List Nat × JVal))

/-- Fueled parser for the grammar accepted by Python's `json.loads`
(default `JSONDecoder`): objects, arrays, strings, numbers, `true`,
`false`, `null`, and the CPython extensions `NaN`, `Infinity`,
`-Infinity`.  Returns the parsed value and the remaining input after one
value (`JMode.value`), after the rest of an array (`JMode.elems`,
positioned at an element), or after the rest of an object (`JMode.pairs`,
positioned at a key).  The fuel only bounds recursion depth; `jsonParse`
supplies more than any input of its length can consume. -/
def jsonRun : Nat → JMode → List Char → Option (JVal × List Char)
  | 0, _, _ => none
  | fuel + 1, JMode.value, s =>
    if ("true".toList).isPrefixOf s then some (JVal.boolv true, s.drop 4)
    else if ("false".toList).isPrefixOf s then some (JVal.boolv false, s.drop 5)
    else if ("null".toList).isPrefixOf s then some (JVal.null, s.drop 4)
    else if ("NaN".toList).isPrefixOf s then
      some (JVal.num ("NaN".toList), s.drop 3)
    else if ("Infinity".toList).isPrefixOf s then
      some (JVal.num ("Infinity".toList), s.drop 8)
    else if ("-Infinity".toList).isPrefixOf s then
      some (JVal.num ("-Infinity".toList), s.drop 9)
    else
      match s with
      | [] => none
      | c :: rest =>
        if c = quoteChar then
          (parseStringBody (rest.length + 1) rest).map (fun p => (JVal.str p.1, p.2))
        else if c = '[' then
          match skipWs rest with
          | [] => none
          | x :: r2 =>
            if x = ']' then some (JVal.arr [], r2)
            else jsonRun fuel (JMode.elems []) (x :: r2)
        else if c = lbraceChar then
          match skipWs rest with
          | [] => none
          | x :: r2 =>
            if x = rbraceChar then some (JVal.obj [], r2)
            else jsonRun fuel (JMode.pairs []) (x :: r2)
        else if c = '-' ∨ c.isDigit then
          (parseNumber (c :: rest)).map (fun p => (JVal.num p.1, p.2))
        else none
  | fuel + 1, JMode.elems acc, s =>
    match jsonRun fuel JMode.value s with
    | none => none
    | some (v, r) =>
      match skipWs r with
      | ']' :: r2 => some (JVal.arr (acc ++ [v]), r2)
      | ',' :: r2 => jsonRun fuel (JMode.elems (acc ++ [v])) (skipWs r2)
      | _ => none
  | fuel + 1, JMode.pairs acc, s =>
    match s with
    | [] => none
    | c :: rest =>
      if c = quoteChar then
        match parseStringBody (rest.length + 1) rest with
        | none => none
        | some (k, r1) =>
          match skipWs r1 with
          | ':' :: r2 =>
            match jsonRun fuel JMode.value (skipWs r2) with
            | none => none
            | some (v, r3) =>
              match skipWs r3 with
              | ',' :: r4 => jsonRun fuel (JMode.pairs (acc ++ [(k, v)])) (skipWs r4)
              | x :: r4 =>
                if x = rbraceChar then some (JVal.obj (acc ++ [(k, v)]), r4)
                else none
              | [] => none
          | _ => none
      else none

/-- Embedding of `json.loads(body)`: one JSON value surrounded by optional
whitespace, or `none` where Python raises `json.JSONDecodeError`. -/
def jsonParse (s : String) : Option JVal :=
  match jsonRun (2 * s.toList.length + 8) JMode.value (skipWs s.toList) with
  | some (v, r) => if (skipWs r).isEmpty then some v else none
  | none => none

/-- Whether `json.loads(body)` succeeds. -/
def jsonValid (s : String) : Bool := (jsonParse s).isSome

/-- The decoded key "services", as code points. -/
def servicesKey : List Nat := "services".toList.map Char.toNat

/-- Python `dict.get(key)` on a parsed object: the value of the last
member with the given key (duplicate keys overwrite in `dict`
construction), or `none` when absent. -/
def dictGet (members : List (List Nat × JVal)) (key : List Nat) : Option JVal :=
  (members.reverse.find? (fun m => m.1 == key)).map (fun m => m.2)

/-- Control flow of the three health print lines (77-79 of the source):
`health_data.get` requires `health_data` to be a dict, and
`health_data.get(...).get(...)` on the services chain additionally
requires the value of a present "services" member to be a dict; any other
shape raises `AttributeError` on `.get`, caught by the surrounding generic
handler.  `true` means the prints succeed and the run proceeds. -/
def healthPrintsOk : JVal → Bool
  | JVal.obj members =>
    match dictGet members servicesKey with
    | none => true
    | some (JVal.obj _) => true
    | some _ => false
  | _ => false

/-- Whether the whole health phase after a zero exit status proceeds: the
body parses as JSON and the three print lines do not raise. -/
def healthPhaseOk (body : String) : Bool :=
  match jsonParse body with
  | some v => healthPrintsOk v
  | none => false

/-- Fueled embedding of Python's `str.count`: scan left to right, counting
non-overlapping occurrences and skipping past each match.  The fuel is
instantiated with more than the haystack length, which every step
consumes. -/
def subCountFuel : Nat → List Char → List Char → Nat
  | 0, _, _ => 0
  | _ + 1, _, [] => 0
  | fuel + 1, pat, c :: rest =>
    if pat.isPrefixOf (c :: rest) then
      1 + subCountFuel fuel pat (rest.drop (pat.length - 1))
    else subCountFuel fuel pat rest

/-- `pyCount s pat` is Python's `s.count(pat)` for the non-empty literal
patterns used by the script. -/
def pyCount (s pat : String) : Nat :=
  subCountFuel (s.toList.length + 1) pat.toList s.toList

/-- Specification-side occurrence count: the number of positions of `s` at
which `pat` starts, counting every position (not skipping past matches).
For the script's patterns, which cannot overlap themselves, this agrees
with `pyCount`; the bridge is proved below. -/
def occAll (pat : List Char) : List Char → Nat
  | [] => 0
  | c :: rest => (if pat.isPrefixOf (c :: rest) then 1 else 0) + occAll pat rest

/-- Drop everything up to and including the leftmost occurrence of `pat`;
`none` when `pat` does not occur. -/
def dropUntilMatch (pat : List Char) : List Char → Option (List Char)
  | [] => none
  | c :: rest =>
    if pat.isPrefixOf (c :: rest) then some ((c :: rest).drop pat.length)
    else dropUntilMatch pat rest

/-- Embedding of `re.search(attr + '="([^"]*)"', body)`, returning group 1:
the regex matches at the leftmost occurrence of `attr="` that is followed
by a closing quote, and captures the run of non-quote characters after the
opening quote.  (If the leftmost occurrence has no closing quote after it,
the rest of the input contains no quote at all, so no later occurrence can
exist and the search fails.) -/
def reSearchAttr (attr body : String) : Option String :=
  match dropUntilMatch (attr.toList ++ ['=', quoteChar]) body.toList with
  | none => none
  | some rest =>
    match rest.dropWhile (fun c => !(c == quoteChar)) with
    | [] => none
    | _ :: _ => some (String.mk (rest.takeWhile (fun c => !(c == quoteChar))))

/-- Outcome of one `subprocess.run(curl …, timeout=30)` call in
`test_scenario`: the process completed with an exit status and captured
stdout, the 30-second budget expired (`subprocess.TimeoutExpired`), or some
other exception was raised (converted to text by `str(e)`). -/
inductive CurlOutcome
  | completed (returncode : Int) (stdout : String)
  | timedOut
  | failed (msg : String)
deriving DecidableEq

/-- The dictionary returned by `test_scenario`.  Each Python dict may omit
keys, so every field that some branch omits is an `Option` whose `none`
means "key absent".  `gather_timeout` and `speech_timeout` additionally
distinguish, when present, between Python `None` (inner `none`) and an
extracted string.  The measured latency is a Python float — a binary64
value, itself an exact rational — represented here as `ℚ`. -/
structure ScenarioResult where
  scenario : String
  response_time_ms : Option ℚ := none
  success : Bool
  tts_instances : Option Nat := none
  fallback_instances : Option Nat := none
  gather_timeout : Option (Option String) := none
  speech_timeout : Option (Option String) := none
  timeout : Option Bool := none
  error : Option String := none
deriving DecidableEq

/-- Text of the `UnboundLocalError` raised when the result dict of
`test_scenario` evaluates `gather_timeout` while `result.stdout` is empty:
the name is assigned later in the function (line 38 of the source), so it
is a local variable, and reading it before assignment raises
`UnboundLocalError`.  This is the CPython 3.11+ message; 3.10 and earlier
format it as "local variable ... referenced before assignment", so
statements below assert only the presence of the error key, not this
version-dependent text. -/
def unboundLocalErrorText : String :=
  "cannot access local variable \x27gather_timeout\x27 where it is not associated with a value"

/-- Embedding of `test_scenario(scenario_name, speech_text, call_id)` after
the request has been issued.  `outcome` is what `subprocess.run` produced
and `elapsed_ms` the wall-clock measurement `(end_time - start_time) *
1000` around it.

On the completed path the source builds
`{'scenario', 'response_time_ms', 'success', 'tts_instances',
'fallback_instances', 'gather_timeout', 'speech_timeout'}`, but the names
`gather_timeout` / `speech_timeout` are bound only under
`if result.stdout:`; with empty stdout the dict expression raises
`UnboundLocalError` (the counts are saved by their `… if result.stdout
else 0` guards, which short-circuit), and the generic `except Exception`
handler
returns `{'scenario', 'success': False, 'error': str(e)}` instead.  On
`TimeoutExpired` the source returns the fixed sentinel dict, and on any
other exception the error dict. -/
def test_scenario (scenario_name : String) (outcome : CurlOutcome)
    (elapsed_ms : ℚ) : ScenarioResult :=
  match outcome with
  | CurlOutcome.completed rc body =>
    if body = "" then
      { scenario := scenario_name, success := false, error := some unboundLocalErrorText }
    else
      { scenario := scenario_name,
        response_time_ms := some elapsed_ms,
        success := rc == 0,
        tts_instances := some (pyCount body "<Play>"),
        fallback_instances := some (pyCount body "<Say>"),
        gather_timeout := some (reSearchAttr "timeout" body),
        speech_timeout := some (reSearchAttr "speechTimeout" body) }
  | CurlOutcome.timedOut =>
    { scenario := scenario_name, response_time_ms := some 30000,
      success := false, timeout := some true }
  | CurlOutcome.failed msg =>
    { scenario := scenario_name, success := false, error := some msg }

/-- The four fixed scenarios of `main`: label, spoken input, call id. -/
def scenarios : List (String × String × String) :=
  [("Termite Emergency", "Hi I have a termite emergency in Mosman", "baseline-test-1"),
   ("Service Inquiry", "Do you service Cremorne what services do you offer", "baseline-test-2"),
   ("Booking Request", "My name is John and I need to book a pest control treatment for Friday", "baseline-test-3"),
   ("Business Hours", "What are your business hours", "baseline-test-4")]

/-- Outcome of the health-probe `subprocess.run(curl …, timeout=10)`:
completed with exit status and body, or an exception (its 10-second
timeout, curl unavailable, …) caught by the surrounding
`except Exception`. -/
inductive HealthOutcome
  | completed (returncode : Int) (stdout : String)
  | exc (msg : String)
deriving DecidableEq

/-- The summary document `main` writes to `baseline-results.json`.  The
three latency aggregates are floats in the source; see `avgOf` for the
scope of the exact-rational model. -/
structure SummaryReport where
  timestamp : ℚ
  total_tests : Nat
  successful_tests : Nat
  avg_response_time_ms : ℚ
  min_response_time_ms : ℚ
  max_response_time_ms : ℚ
  detailed_results : List ScenarioResult
deriving DecidableEq

/-- Observable outcome of `main`.
* `abortedConnect`: the `except Exception` handler ran (health-probe
  exception, `json.loads` raising on an invalid body, or the
  `health_data.get` print chain raising `AttributeError` on a non-dict),
  printed the cannot-connect message, and `main` returned normally; no
  scenario request was issued and no file written.
* `abortedHealthCheck`: non-zero health exit status; printed the failure
  message and returned; no scenario request, no file.
* `uncaught`: an exception escaped `main` and crashed the process.  No
  branch of the embedded code produces it; it exists so that statements
  about crashing can be expressed.
* `finished results written`: the scenario loop ran, producing `results`
  in order, and `written` is the report persisted to
  `baseline-results.json` (`none` when the write was skipped). -/
inductive MainOutcome
  | abortedConnect
  | abortedHealthCheck
  | uncaught
  | finished (results : List ScenarioResult) (written : Option SummaryReport)
deriving DecidableEq

/-- The report `main` persists, `none` for every non-writing path. -/
def MainOutcome.writtenReport : MainOutcome → Option SummaryReport
  | MainOutcome.finished _ w => w
  | _ => none

/-- The scenario results `main` accumulated; `[]` on the abort paths, where
no scenario request is ever issued. -/
def MainOutcome.scenarioResults : MainOutcome → List ScenarioResult
  | MainOutcome.finished rs _ => rs
  | _ => []

/-- The `for scenario_name, speech_text, call_id in scenarios:` loop:
one `test_scenario` call per scenario in order (the `time.sleep(1)` between
iterations has no observable effect on the results).  `runs i` is the
outcome and measured latency of the request issued for scenario `i`. -/
def runScenariosAux (runs : Nat → CurlOutcome × ℚ) :
    Nat → List (String × String × String) → List ScenarioResult
  | _, [] => []
  | i, (name, _speech, _cid) :: rest =>
    test_scenario name (runs i).1 (runs i).2 :: runScenariosAux runs (i + 1) rest

/-- The scenario loop applied to the script's fixed scenario list. -/
def runScenarios (runs : Nat → CurlOutcome × ℚ) : List ScenarioResult :=
  runScenariosAux runs 0 scenarios

/-- Latencies of the successful results, as the aggregation comprehensions
`(r['response_time_ms'] for r in successful_tests)` read them.  Results
with `success` true always carry the key (proved below), so the `getD`
default is never taken on program-produced lists. -/
def successTimes (results : List ScenarioResult) : List ℚ :=
  (results.filter (fun r => r.success)).map (fun r => r.response_time_ms.getD 0)

/-- `sum(...) / len(...)` over a list of latencies, in exact rational
arithmetic.  The source computes this in IEEE-754 doubles: every such
double is itself a rational, but float addition and division round, so
this model coincides with the program exactly when the float computation
is exact — as at the integral-millisecond latencies appearing in the
statements below — and rounding-sensitive order properties of the average
are not settled with it. -/
def avgOf (l : List ℚ) : ℚ := l.sum / (l.length : ℚ)

/-- Python `min` over a non-empty collection (the `[]` case is never
reached: `summarize` only evaluates it under a non-emptiness guard).
Float `min` selects an element and never rounds, so the rational model is
exact here. -/
def listMin : List ℚ → ℚ
  | [] => 0
  | a :: as => as.foldl min a

/-- Python `max` over a non-empty collection; same remark as `listMin`. -/
def listMax : List ℚ → ℚ
  | [] => 0
  | a :: as => as.foldl max a

/-- The summary phase of `main`: filter to `success` results; when the
filtered list is empty (`if successful_tests:` falsy) print the failure
message and skip the write; otherwise build and persist the report.
`now` is the `time.time()` value recorded in the document. -/
def summarize (now : ℚ) (results : List ScenarioResult) : Option SummaryReport :=
  if (results.filter (fun r => r.success)).isEmpty then none
  else
    some { timestamp := now,
           total_tests := results.length,
           successful_tests := (results.filter (fun r => r.success)).length,
           avg_response_time_ms := avgOf (successTimes results),
           min_response_time_ms := listMin (successTimes results),
           max_response_time_ms := listMax (successTimes results),
           detailed_results := results }

namespace SimpleTest

/-- Embedding of `main()`.  The health phase sits in a `try` whose
`except Exception` catches `subprocess.run` failures, the
`json.JSONDecodeError` raised by `json.loads` on an invalid body (a
`ValueError`, hence an `Exception`), and the `AttributeError` raised by
the subsequent print lines when the parsed body (or its "services"
member) is not a dict; in each case `main` prints the cannot-connect
message and returns before any scenario.  A non-zero health exit status
prints its own message and returns.  Otherwise the scenario loop and the
summary phase run. -/
def main (health : HealthOutcome) (runs : Nat → CurlOutcome × ℚ) (now : ℚ) :
    MainOutcome :=
  match health with
  | HealthOutcome.exc _ => MainOutcome.abortedConnect
  | HealthOutcome.completed rc body =>
    if rc = 0 then
      match jsonParse body with
      | none => MainOutcome.abortedConnect
      | some v =>
        if healthPrintsOk v then
          MainOutcome.finished (runScenarios runs)
            (summarize now (runScenarios runs))
        else MainOutcome.abortedConnect
    else MainOutcome.abortedHealthCheck

end SimpleTest

/-- Concrete run oracle: every scenario request exceeds its 30-second
budget. -/
def allTimeoutRuns : Nat → CurlOutcome × ℚ := fun _ => (CurlOutcome.timedOut, 0)

/-- Concrete run oracle: every scenario request completes with exit status
zero, body "ok" and a measured latency of 100 ms. -/
def allOkRuns : Nat → CurlOutcome × ℚ := fun _ => (CurlOutcome.completed 0 "ok", 100)

/-- Concrete run oracle: the four scenario requests succeed with measured
latencies 100, 200, 300 and 400 ms. -/
def stairRuns : Nat → CurlOutcome × ℚ
  | 0 => (CurlOutcome.completed 0 "ok", 100)
  | 1 => (CurlOutcome.completed 0 "ok", 200)
  | 2 => (CurlOutcome.completed 0 "ok", 300)
  | _ => (CurlOutcome.completed 0 "ok", 400)

theorem isPrefixOf_iff_exists :
    ∀ (l s : List Char), l.isPrefixOf s = true ↔ ∃ t, s = l ++ t := by
  intro l
  induction l with
  | nil =>
    intro s
    simp [List.isPrefixOf]
  | cons a as ih =>
    intro s
    cases s with
    | nil => simp [List.isPrefixOf]
    | cons b bs =>
      simp only [List.isPrefixOf, Bool.and_eq_true, beq_iff_eq, ih bs,
        List.cons_append, List.cons.injEq]
      constructor
      · rintro ⟨hab, t, ht⟩
        exact ⟨t, hab.symm, ht⟩
      · rintro ⟨t, hba, ht⟩
        exact ⟨hba.symm, t, ht⟩

theorem occAll_append_of_ne (p : Char) (ps qs t : List Char)
    (h : ∀ c ∈ qs, c ≠ p) :
    occAll (p :: ps) (qs ++ t) = occAll (p :: ps) t := by
  induction qs with
  | nil => rfl
  | cons q qs ih =>
    have hq : q ≠ p := h q (List.mem_cons_self q qs)
    have hrest : ∀ c ∈ qs, c ≠ p := fun c hc => h c (List.mem_cons_of_mem q hc)
    have hpre : (p :: ps).isPrefixOf (q :: (qs ++ t)) = false := by
      simp only [List.isPrefixOf, Bool.and_eq_false_iff]
      left
      simp [beq_eq_false_iff_ne]
      exact fun hpq => hq hpq.symm
    simp only [List.cons_append, occAll, List.append_eq, hpre, if_false,
      Bool.false_eq_true, ite_false, ih hrest, Nat.zero_add]

theorem subCountFuel_eq_occAll (p : Char) (ps : List Char)
    (hfresh : ∀ c ∈ ps, c ≠ p) :
    ∀ (fuel : Nat) (s : List Char), s.length ≤ fuel →
      subCountFuel fuel (p :: ps) s = occAll (p :: ps) s := by
  intro fuel
  induction fuel with
  | zero =>
    intro s hs
    have : s = [] := List.eq_nil_of_length_eq_zero (Nat.le_zero.mp hs)
    subst this
    rfl
  | succ fuel ih =>
    intro s hs
    cases s with
    | nil => rfl
    | cons c rest =>
      have hlen : rest.length ≤ fuel := Nat.lt_succ_iff.mp hs
      by_cases hp : (p :: ps).isPrefixOf (c :: rest) = true
      · obtain ⟨t, ht⟩ := (isPrefixOf_iff_exists _ _).mp hp
        have hc : c = p := by
          have := ht
          simp only [List.cons_append, List.cons.injEq] at this
          exact this.1
        have hrt : rest = ps ++ t := by
          have := ht
          simp only [List.cons_append, List.cons.injEq] at this
          exact this.2
        have htlen : t.length ≤ fuel := by
          have : t.length ≤ rest.length := by
            rw [hrt, List.length_append]
            exact Nat.le_add_left _ _
          exact le_trans this hlen
        have hdrop : rest.drop ((p :: ps).length - 1) = t := by
          rw [hrt]
          simp only [List.length_cons, Nat.succ_sub_one]
          exact List.drop_left ps t
        simp only [subCountFuel, hp, if_true, occAll, hdrop]
        rw [ih t htlen, hrt, occAll_append_of_ne p ps ps t hfresh]
      · have hp' : (p :: ps).isPrefixOf (c :: rest) = false :=
          Bool.eq_false_iff.mpr hp
        simp only [subCountFuel, occAll, hp', Bool.false_eq_true, if_false,
          ite_false, Nat.zero_add]
        exact ih rest hlen

theorem pyCount_play (body : String) :
    pyCount body "<Play>" = occAll ("<Play>".toList) body.toList := by
  have hpat : "<Play>".toList = '<' :: ['P', 'l', 'a', 'y', '>'] := by decide
  rw [pyCount, hpat]
  exact subCountFuel_eq_occAll '<' ['P', 'l', 'a', 'y', '>'] (by decide)
    (body.toList.length + 1) body.toList (Nat.le_succ _)

theorem pyCount_say (body : String) :
    pyCount body "<Say>" = occAll ("<Say>".toList) body.toList := by
  have hpat : "<Say>".toList = '<' :: ['S', 'a', 'y', '>'] := by decide
  rw [pyCount, hpat]
  exact subCountFuel_eq_occAll '<' ['S', 'a', 'y', '>'] (by decide)
    (body.toList.length + 1) body.toList (Nat.le_succ _)

theorem runScenarios_length (runs : Nat → CurlOutcome × ℚ) :
    (runScenarios runs).length = 4 := by
  simp [runScenarios, runScenariosAux, scenarios]

/-- C1: the claim says every scenario run whose curl process exits with
status zero returns a result with `success == true` carrying the counts of
the two markers over the raw body.  The code contradicts it on an empty
body (curl can exit 0 with no output): the result dict evaluates
`gather_timeout`, a local assigned only under `if result.stdout:`, so
`UnboundLocalError` is raised, caught by the generic handler, and a
`{'scenario', 'success': False, 'error': str(e)}` dict is returned
instead — even though the `… if result.stdout else 0` guards on the counts
show the empty-body case was meant to produce a normal result.  This
theorem evaluates the embedded code at the failing input, asserting the
facts that hold on every CPython version: the exception message text
varies between versions (see `unboundLocalErrorText`), so only the
presence of the error key is asserted, not its text. -/
theorem c1_empty_body_unbound_local :
    (test_scenario "Termite Emergency" (CurlOutcome.completed 0 "") 123).success =
        false ∧
      (test_scenario "Termite Emergency"
        (CurlOutcome.completed 0 "") 123).response_time_ms = none ∧
      (test_scenario "Termite Emergency"
        (CurlOutcome.completed 0 "") 123).tts_instances = none ∧
      (test_scenario "Termite Emergency"
        (CurlOutcome.completed 0 "") 123).fallback_instances = none ∧
      (test_scenario "Termite Emergency"
        (CurlOutcome.completed 0 "") 123).error.isSome = true := by
  decide

/-- C2 counterexample: the claim says that on exit status zero with a body
that is not valid JSON the parse exception escapes uncaught and crashes
the process.  At the concrete input body = "not-json" the embedded `main`
instead reaches `abortedConnect` — the `except Exception` around the
health phase catches the `json.JSONDecodeError` (a `ValueError`, hence an
`Exception`) and returns normally — and in particular the outcome is not
`uncaught`. -/
theorem c2_parse_crash_counterexample :
    SimpleTest.main (HealthOutcome.completed 0 "not-json") allTimeoutRuns 0 =
        MainOutcome.abortedConnect ∧
      SimpleTest.main (HealthOutcome.completed 0 "not-json") allTimeoutRuns 0 ≠
        MainOutcome.uncaught := by
  constructor
  · decide
  · decide

/-- C2 amended: if the health-check process exits with status zero but its
body is not valid JSON, the parse exception is caught by the surrounding
generic connection-failure handler; `main` prints the cannot-connect
message and returns normally, so no scenario is run and no result file is
written (but the process does not crash). -/
theorem c2_parse_error_caught (body : String) (runs : Nat → CurlOutcome × ℚ)
    (now : ℚ) (h : jsonValid body = false) :
    SimpleTest.main (HealthOutcome.completed 0 body) runs now =
        MainOutcome.abortedConnect ∧
      (SimpleTest.main (HealthOutcome.completed 0 body) runs now).writtenReport =
        none := by
  have hp : jsonParse body = none := by
    simp only [jsonValid] at h
    cases hj : jsonParse body with
    | none => rfl
    | some v => rw [hj] at h; simp at h
  have hm : SimpleTest.main (HealthOutcome.completed 0 body) runs now =
      MainOutcome.abortedConnect := by
    simp [SimpleTest.main, hp]
  refine ⟨hm, ?_⟩
  rw [hm]
  rfl

/-- C2 witness: the amended statement applied at the invalid body
"not-json". -/
theorem c2_parse_error_caught_witness :
    SimpleTest.main (HealthOutcome.completed 0 "not-json") allOkRuns 1 =
        MainOutcome.abortedConnect ∧
      (SimpleTest.main (HealthOutcome.completed 0 "not-json") allOkRuns 1).writtenReport =
        none :=
  c2_parse_error_caught "not-json" allOkRuns 1 (by decide)

/-- C3: for every response body in which the pattern `timeout="([^"]*)"`
has no match, the returned result carries no gather-timeout value: reading
`gather_timeout` with the absent-defaulting access (`Option.getD none`,
Python's `dict.get`) yields `None`.  The spec's data model types the field
as text-or-absent, so "equal to None" is exactly "no extracted text": on a
non-empty body the field is present and bound to Python `None`; on an
empty body the returned error dict omits the field altogether. -/
theorem c3_no_timeout_attr (n : String) (rc : Int) (body : String) (t : ℚ)
    (h : reSearchAttr "timeout" body = none) :
    ((test_scenario n (CurlOutcome.completed rc body) t).gather_timeout).getD none =
      none := by
  by_cases hb : body = ""
  · simp [test_scenario, hb]
  · simp [test_scenario, hb, h]

/-- C3 witness: a body with no timeout attribute at all. -/
theorem c3_no_timeout_attr_witness :
    ((test_scenario "Business Hours" (CurlOutcome.completed 0 "<Response></Response>")
        10).gather_timeout).getD none = none :=
  c3_no_timeout_attr "Business Hours" 0 "<Response></Response>" 10 (by decide)

/-- C4: a scenario run whose request exceeds the 30-second budget returns
exactly `{'scenario', 'response_time_ms': 30000, 'success': False,
'timeout': True}` — every other key absent, and `response_time_ms` the
fixed sentinel 30000 for every measured elapsed time `t`. -/
theorem c4_timeout_sentinel (n : String) (t : ℚ) :
    test_scenario n CurlOutcome.timedOut t =
      { scenario := n, response_time_ms := some 30000, success := false,
        timeout := some true } := rfl

/-- C6: a response body containing exactly two occurrences of `<Play>` and
one of `<Say>` (occurrences counted at every starting position, the
specification-side reading) yields `tts_instances == 2` and
`fallback_instances == 1`, whatever the exit status and measured time. -/
theorem c6_marker_counts (n : String) (rc : Int) (body : String) (t : ℚ)
    (hplay : occAll ("<Play>".toList) body.toList = 2)
    (hsay : occAll ("<Say>".toList) body.toList = 1) :
    (test_scenario n (CurlOutcome.completed rc body) t).tts_instances = some 2 ∧
      (test_scenario n (CurlOutcome.completed rc body) t).fallback_instances =
        some 1 := by
  have hb : body ≠ "" := by
    intro hb
    rw [hb] at hplay
    exact absurd hplay (by decide)
  have h1 : (test_scenario n (CurlOutcome.completed rc body) t).tts_instances =
      some (pyCount body "<Play>") := by
    simp [test_scenario, hb]
  have h2 : (test_scenario n (CurlOutcome.completed rc body) t).fallback_instances =
      some (pyCount body "<Say>") := by
    simp [test_scenario, hb]
  rw [h1, h2, pyCount_play, pyCount_say, hplay, hsay]
  exact ⟨rfl, rfl⟩

/-- C6 witness: a concrete body with two `<Play>` and one `<Say>`. -/
theorem c6_marker_counts_witness :
    (test_scenario "Termite Emergency"
        (CurlOutcome.completed 0 "<Play> <Play> <Say>") 50).tts_instances = some 2 ∧
      (test_scenario "Termite Emergency"
        (CurlOutcome.completed 0 "<Play> <Play> <Say>") 50).fallback_instances =
        some 1 :=
  c6_marker_counts "Termite Emergency" 0 "<Play> <Play> <Say>" 50 (by decide)
    (by decide)

/-- C9: every result `test_scenario` returns with `success` true carries
`response_time_ms`, `tts_instances` and `fallback_instances` (only the
completed-with-non-empty-body branch sets `success` to true, and it binds
all three keys), so the aggregation over the successful results never
reads a missing key. -/
theorem c9_success_results_carry_fields (n : String) (o : CurlOutcome) (t : ℚ)
    (h : (test_scenario n o t).success = true) :
    (test_scenario n o t).response_time_ms.isSome = true ∧
      (test_scenario n o t).tts_instances.isSome = true ∧
      (test_scenario n o t).fallback_instances.isSome = true := by
  cases o with
  | completed rc body =>
    by_cases hb : body = ""
    · simp [test_scenario, hb] at h
    · simp [test_scenario, hb]
  | timedOut => simp [test_scenario] at h
  | failed msg => simp [test_scenario] at h

/-- C9 witness: a successful run. -/
theorem c9_success_results_carry_fields_witness :
    (test_scenario "Termite Emergency" (CurlOutcome.completed 0 "ok")
        5).response_time_ms.isSome = true ∧
      (test_scenario "Termite Emergency" (CurlOutcome.completed 0 "ok")
        5).tts_instances.isSome = true ∧
      (test_scenario "Termite Emergency" (CurlOutcome.completed 0 "ok")
        5).fallback_instances.isSome = true :=
  c9_success_results_carry_fields "Termite Emergency"
    (CurlOutcome.completed 0 "ok") 5 (by decide)

/-- C8: if the health probe fails — non-zero exit status, or an exception
such as inability to connect at all — `main` stops right after the health
check: it reaches the corresponding abort outcome, issues no scenario
request and produces no result file. -/
theorem c8_health_failure_aborts (runs : Nat → CurlOutcome × ℚ) (now : ℚ) :
    (∀ (rc : Int) (body : String), rc ≠ 0 →
        SimpleTest.main (HealthOutcome.completed rc body) runs now =
            MainOutcome.abortedHealthCheck ∧
          (SimpleTest.main (HealthOutcome.completed rc body) runs
              now).scenarioResults = [] ∧
          (SimpleTest.main (HealthOutcome.completed rc body) runs
              now).writtenReport = none) ∧
    (∀ msg : String,
        SimpleTest.main (HealthOutcome.exc msg) runs now =
            MainOutcome.abortedConnect ∧
          (SimpleTest.main (HealthOutcome.exc msg) runs now).scenarioResults = [] ∧
          (SimpleTest.main (HealthOutcome.exc msg) runs now).writtenReport =
            none) := by
  constructor
  · intro rc body hrc
    have hm : SimpleTest.main (HealthOutcome.completed rc body) runs now =
        MainOutcome.abortedHealthCheck := by
      simp [SimpleTest.main, hrc]
    refine ⟨hm, ?_, ?_⟩ <;> rw [hm] <;> rfl
  · intro msg
    exact ⟨rfl, rfl, rfl⟩

/-- C8 witness: exit status 7 (curl connection failure) and a raised
connection exception. -/
theorem c8_health_failure_aborts_witness :
    SimpleTest.main (HealthOutcome.completed 7 "") allTimeoutRuns 0 =
        MainOutcome.abortedHealthCheck ∧
      SimpleTest.main (HealthOutcome.exc "connection refused") allTimeoutRuns 0 =
        MainOutcome.abortedConnect :=
  ⟨((c8_health_failure_aborts allTimeoutRuns 0).1 7 "" (by decide)).1,
   ((c8_health_failure_aborts allTimeoutRuns 0).2 "connection refused").1⟩

/-- C7: if no scenario result of the run has `success` true, the summary
file is never written — whatever the health outcome, `main` produces no
report (the driver prints the failure message and skips the write). -/
theorem c7_no_success_no_report (runs : Nat → CurlOutcome × ℚ) (now : ℚ)
    (health : HealthOutcome)
    (hfail : (runScenarios runs).all (fun r => !r.success) = true) :
    (SimpleTest.main health runs now).writtenReport = none := by
  cases health with
  | exc msg => rfl
  | completed rc body =>
    by_cases hrc : rc = 0
    · cases hj : jsonParse body with
      | none => simp [SimpleTest.main, hrc, hj, MainOutcome.writtenReport]
      | some v =>
        by_cases hh : healthPrintsOk v = true
        · have hempty : (runScenarios runs).filter (fun r => r.success) = [] := by
            rw [List.filter_eq_nil_iff]
            intro a ha
            have h1 := List.all_eq_true.mp hfail a ha
            simp only [Bool.not_eq_true'] at h1
            simp [h1]
          simp [SimpleTest.main, hrc, hj, hh, MainOutcome.writtenReport,
            summarize, hempty]
        · simp [SimpleTest.main, hrc, hj, hh, MainOutcome.writtenReport]
    · simp [SimpleTest.main, hrc, MainOutcome.writtenReport]

/-- C7 witness: all four scenario calls time out. -/
theorem c7_no_success_no_report_witness :
    (SimpleTest.main (HealthOutcome.completed 0 "{}") allTimeoutRuns
        0).writtenReport = none :=
  c7_no_success_no_report allTimeoutRuns 0 (HealthOutcome.completed 0 "{}")
    (by decide)

/-- C5: when the run proceeds past the health phase (exit status zero, the
body parses as JSON, and the `health_data.get` print lines do not raise —
the parsed body and any "services" member are dicts) and the successful
response times are exactly [100, 200, 300, 400] ms, the written summary
reports `avg == 250`, `min == 100`, `max == 400`, `total_tests == 4` and
`successful_tests == 4`; the aggregates are computed by `summarize` over
exactly the results whose `success` flag is true.  At these integral
latencies the binary64 arithmetic of the source is exact, so the rational
values coincide with the floats the program writes. -/
theorem c5_summary_statistics (body : String) (runs : Nat → CurlOutcome × ℚ)
    (now : ℚ) (hok : healthPhaseOk body = true)
    (ht : successTimes (runScenarios runs) = [100, 200, 300, 400]) :
    (SimpleTest.main (HealthOutcome.completed 0 body) runs now).writtenReport.map
        (fun rep => (rep.avg_response_time_ms, rep.min_response_time_ms,
          rep.max_response_time_ms, rep.total_tests, rep.successful_tests)) =
      some (250, 100, 400, 4, 4) := by
  obtain ⟨v, hj, hh⟩ : ∃ v, jsonParse body = some v ∧ healthPrintsOk v = true := by
    simp only [healthPhaseOk] at hok
    cases hj : jsonParse body with
    | none => rw [hj] at hok; exact absurd hok (by simp)
    | some v => rw [hj] at hok; exact ⟨v, rfl, hok⟩
  have hlen : ((runScenarios runs).filter (fun r => r.success)).length = 4 := by
    have := congrArg List.length ht
    simpa [successTimes] using this
  have hemp : ((runScenarios runs).filter (fun r => r.success)).isEmpty = false := by
    cases hf : (runScenarios runs).filter (fun r => r.success) with
    | nil => rw [hf] at hlen; exact absurd hlen (by decide)
    | cons a as => rfl
  have hmain : SimpleTest.main (HealthOutcome.completed 0 body) runs now =
      MainOutcome.finished (runScenarios runs)
        (summarize now (runScenarios runs)) := by
    simp [SimpleTest.main, hj, hh]
  rw [hmain]
  show (summarize now (runScenarios runs)).map _ = _
  rw [summarize, if_neg (by rw [hemp]; exact Bool.false_ne_true)]
  rw [Option.map_some']
  have havg : avgOf (successTimes (runScenarios runs)) = 250 := by
    rw [ht, avgOf]
    norm_num
  have hmin : listMin (successTimes (runScenarios runs)) = 100 := by
    rw [ht]
    norm_num [listMin, min_def]
  have hmax : listMax (successTimes (runScenarios runs)) = 400 := by
    rw [ht]
    norm_num [listMax, max_def]
  rw [havg, hmin, hmax, runScenarios_length, hlen]

/-- C5 witness: a healthy probe body and four scenarios succeeding with
latencies 100, 200, 300 and 400 ms. -/
theorem c5_summary_statistics_witness :
    (SimpleTest.main (HealthOutcome.completed 0 "{}") stairRuns 0).writtenReport.map
        (fun rep => (rep.avg_response_time_ms, rep.min_response_time_ms,
          rep.max_response_time_ms, rep.total_tests, rep.successful_tests)) =
      some (250, 100, 400, 4, 4) :=
  c5_summary_statistics "{}" stairRuns 0 (by decide) (by decide)
